import Mathlib

/-!
Verification development for a small financial-agent application.

The development shallowly embeds the persistence layer (class
FinancialAgentDB in db.py), the digest mailer (class StockEmailer in
daily_mail.py) and the conversation-loop routing function
(should_continue in FinReAct.py), and proves the documented properties
about these embeddings.

Modelling conventions:
- Python strings are Lean String values; Python str.upper on the ASCII
  symbols handled here is modelled by mapping Char.toUpper over the
  characters (pyUpper below).
- SQL tables are Lean lists of row structures, in insertion order; the
  per-table id counters of the id_counters table are Nat fields of the
  database state.
- Python float / SQL DECIMAL values are modelled as Rat; a raised
  ZeroDivisionError is modelled explicitly where the code divides.
- Fallible operations return the pair of the new state and the Python
  return value; functions that can raise and catch return a sum-like
  result type mirroring the except branch of the source.
-/

/-- Models Python str.upper for the ASCII strings used as stock symbols:
uppercases every character. -/
def pyUpper (s : String) : String := ⟨s.data.map Char.toUpper⟩

/-- Row of the users table (db.py, setup_db): user_id, unique email.
The created_at timestamp column is not modelled. -/
structure UserRow where
  user_id : Nat
  email : String
deriving DecidableEq

/-- Row of the favorite_stocks table (db.py, setup_db): favorite_id,
user_id, stock_symbol, optional low/high price thresholds. The added_at
timestamp column is not modelled. -/
structure FavRow where
  favorite_id : Nat
  user_id : Nat
  stock_symbol : String
  price_threshold_low : Option Rat
  price_threshold_high : Option Rat
deriving DecidableEq

/-- Row of the query_stocks table (db.py, setup_db): id, query_id,
stock_symbol. -/
structure QueryStockRow where
  id : Nat
  query_id : Nat
  stock_symbol : String
deriving DecidableEq

/-- State of the finreact_db database restricted to the tables the
verified operations touch, together with the id_counters entries for
those tables (db.py keeps a last_id counter per table and _get_next_id
increments then reads it). -/
structure DBState where
  users : List UserRow
  favorite_stocks : List FavRow
  query_stocks : List QueryStockRow
  users_counter : Nat
  favorites_counter : Nat
  query_stocks_counter : Nat
deriving DecidableEq

/-- The freshly set up database: empty tables, counters at 0
(db.py, setup_db initialises every last_id to 0). -/
def emptyDB : DBState :=
  { users := [], favorite_stocks := [], query_stocks := [],
    users_counter := 0, favorites_counter := 0, query_stocks_counter := 0 }

/-- Models the query SELECT COUNT(*) FROM favorite_stocks WHERE user_id = ?
(db.py, add_favorite_stock). -/
def favCount (user_id : Nat) (db : DBState) : Nat :=
  db.favorite_stocks.countP (fun r => r.user_id == user_id)

/-- Embeds FinancialAgentDB.create_user (db.py lines 118-135): if a users
row with the given email exists, return its user_id; otherwise draw the
next id from the users counter and insert a new row. Returns the new
state and the returned user_id. -/
def create_user (db : DBState) (email : String) : DBState × Nat :=
  match db.users.find? (fun u => u.email == email) with
  | some u => (db, u.user_id)
  | none =>
    let user_id := db.users_counter + 1
    ({ db with users_counter := user_id,
               users := db.users ++ [{ user_id := user_id, email := email }] },
     user_id)

/-- Embeds FinancialAgentDB.add_favorite_stock (db.py lines 137-168):
reject with False when the user already has 5 favorites, reject with
False when the (user_id, upper symbol) pair is already present, else
insert the row with the uppercased symbol and return True. -/
def add_favorite_stock (db : DBState) (user_id : Nat) (stock_symbol : String)
    (price_threshold_low : Option Rat) (price_threshold_high : Option Rat) :
    DBState × Bool :=
  if 5 ≤ favCount user_id db then
    (db, false)
  else if db.favorite_stocks.any
      (fun r => r.user_id == user_id && r.stock_symbol == pyUpper stock_symbol) then
    (db, false)
  else
    let favorite_id := db.favorites_counter + 1
    ({ db with favorites_counter := favorite_id,
               favorite_stocks := db.favorite_stocks ++
                 [{ favorite_id := favorite_id, user_id := user_id,
                    stock_symbol := pyUpper stock_symbol,
                    price_threshold_low := price_threshold_low,
                    price_threshold_high := price_threshold_high }] },
     true)

/-- Embeds FinancialAgentDB.remove_favorite_stock (db.py lines 227-232):
DELETE FROM favorite_stocks WHERE user_id = ? AND stock_symbol = ?, the
symbol argument uppercased. -/
def remove_favorite_stock (db : DBState) (user_id : Nat) (stock_symbol : String) :
    DBState :=
  { db with favorite_stocks := db.favorite_stocks.filter fun r =>
      !(r.user_id == user_id && r.stock_symbol == pyUpper stock_symbol) }

/-- Embeds FinancialAgentDB.update_thresholds (db.py lines 234-243):
UPDATE favorite_stocks SET price_threshold_low = ?, price_threshold_high = ?
WHERE user_id = ? AND stock_symbol = ?, the symbol argument uppercased.
Both columns are set to the given arguments on every matching row. -/
def update_thresholds (db : DBState) (user_id : Nat) (stock_symbol : String)
    (price_threshold_low : Option Rat) (price_threshold_high : Option Rat) :
    DBState :=
  { db with favorite_stocks := db.favorite_stocks.map fun r =>
      if r.user_id == user_id && r.stock_symbol == pyUpper stock_symbol then
        { r with price_threshold_low := price_threshold_low,
                 price_threshold_high := price_threshold_high }
      else r }

/-- Embeds FinancialAgentDB.log_query_stocks (db.py lines 192-199): for
each symbol in order, draw the next query_stocks id and insert a row with
the uppercased symbol. -/
def log_query_stocks (db : DBState) (query_id : Nat) (stock_symbols : List String) :
    DBState :=
  stock_symbols.foldl
    (fun db symbol =>
      let stock_id := db.query_stocks_counter + 1
      { db with query_stocks_counter := stock_id,
                query_stocks := db.query_stocks ++
                  [{ id := stock_id, query_id := query_id,
                     stock_symbol := pyUpper symbol }] })
    db

/-- One call of the favorites API considered by the cap invariant: an
add_favorite_stock call or a remove_favorite_stock call. -/
inductive FavCall where
  | add (user_id : Nat) (stock_symbol : String)
      (price_threshold_low price_threshold_high : Option Rat)
  | remove (user_id : Nat) (stock_symbol : String)
deriving DecidableEq

/-- Applies one favorites call to the database state, discarding the
Boolean result of add_favorite_stock. -/
def applyFavCall (db : DBState) : FavCall → DBState
  | FavCall.add uid sym lo hi => (add_favorite_stock db uid sym lo hi).1
  | FavCall.remove uid sym => remove_favorite_stock db uid sym

/-- Applies a sequence of favorites calls in order. -/
def runFavCalls (db : DBState) (calls : List FavCall) : DBState :=
  calls.foldl applyFavCall db

/-- One symbol-writing or user-creating database call, for the symbol
uppercasing invariant. -/
inductive DBOp where
  | add (user_id : Nat) (stock_symbol : String)
      (price_threshold_low price_threshold_high : Option Rat)
  | remove (user_id : Nat) (stock_symbol : String)
  | update (user_id : Nat) (stock_symbol : String)
      (price_threshold_low price_threshold_high : Option Rat)
  | logStocks (query_id : Nat) (stock_symbols : List String)
  | newUser (email : String)
deriving DecidableEq

/-- Applies one database call to the state, discarding return values. -/
def applyOp (db : DBState) : DBOp → DBState
  | DBOp.add uid sym lo hi => (add_favorite_stock db uid sym lo hi).1
  | DBOp.remove uid sym => remove_favorite_stock db uid sym
  | DBOp.update uid sym lo hi => update_thresholds db uid sym lo hi
  | DBOp.logStocks qid syms => log_query_stocks db qid syms
  | DBOp.newUser email => (create_user db email).1

/-- Applies a sequence of database calls in order. -/
def runOps (db : DBState) (ops : List DBOp) : DBState :=
  ops.foldl applyOp db

/-- A string produced by Python str.upper: the uppercasing invariant for
stored stock symbols. -/
def Uppercased (s : String) : Prop := ∃ t, s = pyUpper t

/-- Every stock symbol stored in favorite_stocks or query_stocks is an
uppercased string. -/
def UpperInv (db : DBState) : Prop :=
  (∀ r ∈ db.favorite_stocks, Uppercased r.stock_symbol) ∧
  (∀ q ∈ db.query_stocks, Uppercased q.stock_symbol)

namespace StockEmailer

/-- One entry of the providers daily time series: the OHLCV fields of the
JSON object keyed by a date string (daily_mail.py, get_stock_data). -/
structure DailyBar where
  «open» : Rat
  high : Rat
  low : Rat
  close : Rat
  volume : Nat
deriving DecidableEq

/-- The dictionary returned by StockEmailer.get_stock_data on the success
path (daily_mail.py lines 45-55). -/
structure StockQuote where
  symbol : String
  date : String
  «open» : Rat
  high : Rat
  low : Rat
  close : Rat
  volume : Nat
  change : Rat
  change_percent : Rat
deriving DecidableEq

/-- Result of StockEmailer.get_stock_data: either the quote dictionary or
the error payload dictionary with symbol and error message. -/
inductive StockResult where
  | ok (q : StockQuote)
  | err (symbol : String) (error : String)
deriving DecidableEq

/-- Models sorted(time_series.keys(), reverse=True)[0] together with the
lookup time_series[latest_date] (daily_mail.py lines 42-43): the entry
whose date key is lexicographically greatest, none for an empty series
(where Python raises IndexError). Keys of a Python dict are distinct, so
picking the max-key pair is the lookup at the max key. -/
def latestEntry (ts : List (String × DailyBar)) : Option (String × DailyBar) :=
  match ts with
  | [] => none
  | e :: es => some (es.foldl (fun acc p => if acc.1 < p.1 then p else acc) e)

/-- Embeds StockEmailer.get_stock_data (daily_mail.py lines 27-59) on a
provider response. The response is none when the JSON has no
"Time Series (Daily)" key, otherwise the list of date-keyed bars. The
try/except block turns a raised IndexError (empty series) or
ZeroDivisionError (zero open price in the change_percent division) into
the error payload with the str(e) message. -/
def get_stock_data (symbol : String) (resp : Option (List (String × DailyBar))) :
    StockResult :=
  match resp with
  | none => StockResult.err symbol "No data found for this symbol."
  | some time_series =>
    match latestEntry time_series with
    | none => StockResult.err symbol "list index out of range"
    | some (latest_date, latest_data) =>
      if latest_data.«open» = 0 then
        StockResult.err symbol "float division by zero"
      else
        StockResult.ok
          { symbol := symbol
            date := latest_date
            close := latest_data.close
            «open» := latest_data.«open»
            high := latest_data.high
            low := latest_data.low
            volume := latest_data.volume
            change := latest_data.close - latest_data.«open»
            change_percent :=
              (latest_data.close - latest_data.«open») / latest_data.«open» * 100 }

/-- The fields of the stock_data dictionary used by check_price_alerts
(daily_mail.py lines 82-89): the symbol and the close price. -/
structure StockDataRec where
  symbol : String
  close : Rat
deriving DecidableEq

/-- Python truthiness of an optional numeric threshold: None and 0 are
falsy, any other number is truthy. -/
def ratTruthy : Option Rat → Bool
  | none => false
  | some x => x != 0

/-- The low-alert line of check_price_alerts (daily_mail.py line 86). -/
def low_alert_text (stock_data : StockDataRec) (low_threshold : Rat) : String :=
  "PRICE DROPPED: " ++ stock_data.symbol ++ " closed at " ++
    toString stock_data.close ++ ", below your low threshold of " ++
    toString low_threshold ++ "."

/-- The high-alert line of check_price_alerts (daily_mail.py line 88). -/
def high_alert_text (stock_data : StockDataRec) (high_threshold : Rat) : String :=
  "PRICE ROSE: " ++ stock_data.symbol ++ " closed at " ++
    toString stock_data.close ++ ", above your high threshold of " ++
    toString high_threshold ++ "."

/-- Embeds StockEmailer.check_price_alerts (daily_mail.py lines 82-89):
appends the low-alert line when the low threshold is truthy and
close <= low, appends the high-alert line when the high threshold is
truthy and close >= high, joins with a newline, and returns None when no
alert fired. -/
def check_price_alerts (stock_data : StockDataRec)
    (low_threshold high_threshold : Option Rat) : Option String :=
  let alerts : List String :=
    (if ratTruthy low_threshold &&
        decide (stock_data.close ≤ low_threshold.getD 0) then
      [low_alert_text stock_data (low_threshold.getD 0)]
    else []) ++
    (if ratTruthy high_threshold &&
        decide (high_threshold.getD 0 ≤ stock_data.close) then
      [high_alert_text stock_data (high_threshold.getD 0)]
    else [])
  if alerts.isEmpty then none else some (String.intercalate "\n" alerts)

/-- Condition under which the source code emits the low-alert line: the
low threshold is set, nonzero (Python truthiness of the number), and the
close price is at or below it. -/
def lowFires (close : Rat) : Option Rat → Prop
  | none => False
  | some x => x ≠ 0 ∧ close ≤ x

/-- Condition under which the source code emits the high-alert line: the
high threshold is set, nonzero (Python truthiness of the number), and the
close price is at or above it. -/
def highFires (close : Rat) : Option Rat → Prop
  | none => False
  | some x => x ≠ 0 ∧ x ≤ close

/-- A Python dictionary value appearing in the send_email result. -/
inductive PyVal where
  | bool (b : Bool)
  | str (s : String)
deriving DecidableEq

/-- Embeds StockEmailer.send_email (daily_mail.py lines 136-157) at the
level the caller observes: the transport either delivers (transport_ok)
or raises with message err, and the function returns the corresponding
Python dictionary. Despite the declared return type bool, both branches
return a two-entry dictionary. -/
def send_email (transport_ok : Bool) (recipient_email : String) (err : String) :
    List (String × PyVal) :=
  if transport_ok then
    [("success", PyVal.bool true),
     ("message", PyVal.str ("Email sent successfully to " ++ recipient_email ++ "."))]
  else
    [("success", PyVal.bool false),
     ("message", PyVal.str ("Failed to send email: " ++ err))]

/-- Python truthiness of a dictionary: truthy exactly when non-empty. -/
def dictTruthy (d : List (String × PyVal)) : Bool := !d.isEmpty

/-- One favorites row as read by the digest job, with the fields accessed
in daily_mail.py lines 174-177. -/
structure FavoriteEntry where
  stock_symbol : String
  price_threshold_low : Option Rat
  price_threshold_high : Option Rat
deriving DecidableEq

/-- The external world the daily digest job runs against: the weekday of
datetime.now() (Monday 0 .. Sunday 6), the users and their favorites, the
provider responses, the news lines, and whether SMTP delivery succeeds
per recipient. The user and favorites readers stand for the database
reads the job performs; they are inputs here so the job body is a pure
function of them. -/
structure DigestEnv where
  weekday : Nat
  users : List (Nat × String)
  favorites : Nat → List FavoriteEntry
  smtp_ok : String → Bool
  smtp_err : String

/-- One observable side effect of the daily digest job: a quote fetch, a
news fetch, an email send, or a database log write. -/
inductive Effect where
  | quote_fetch (symbol : String)
  | news_fetch (symbol : String)
  | email_send (recipient : String)
  | log_query (user_id : Nat) (query_text : String)
  | log_response (response_text : String) (tools_used : List String)
      (execution_time_ms : Nat)
deriving DecidableEq

/-- Embeds the effect trace of StockEmailer.daily_email_job
(daily_mail.py lines 159-202): return immediately when weekday > 4;
otherwise, per user with a non-empty favorites list, fetch quote and news
for every favorite, send the email, and, when the send_email return value
is truthy, log the synthetic query and response pair with execution time
0 and the fixed tool list. -/
def daily_email_job (env : DigestEnv) : List Effect :=
  if 4 < env.weekday then []
  else
    env.users.flatMap fun user =>
      let favorites := env.favorites user.1
      if favorites.isEmpty then []
      else
        (favorites.flatMap fun f =>
          [Effect.quote_fetch f.stock_symbol, Effect.news_fetch f.stock_symbol]) ++
        [Effect.email_send user.2] ++
        (if dictTruthy (send_email (env.smtp_ok user.2) user.2 env.smtp_err) then
          [Effect.log_query user.1 "Automated daily email sent",
           Effect.log_response "Daily email sent" ["email", "stock_data", "news"] 0]
        else [])

end StockEmailer

/-- One tool invocation request attached to a model message
(FinReAct.py, tool_calls on the last message). -/
structure ToolCall where
  name : String
  args : List (String × String)
deriving DecidableEq

/-- A transcript message as inspected by should_continue: its text
content and its list of tool invocation requests. -/
structure BaseMessage where
  content : String
  tool_calls : List ToolCall
deriving DecidableEq

/-- The AgentState TypedDict of FinReAct.py lines 23-26: the message
transcript plus the session user id and email. -/
structure AgentState where
  messages : List BaseMessage
  user_id : Nat
  user_email : String
deriving DecidableEq

/-- Embeds should_continue (FinReAct.py lines 171-177): inspect the last
transcript message; an empty tool_calls list is falsy, so the function
returns "end" exactly then, and "continue" otherwise. Python
messages[-1] raises on an empty transcript, so the embedding requires a
non-empty one. -/
def should_continue (state : AgentState) (h : state.messages ≠ []) : String :=
  let last_message := state.messages.getLast h
  if last_message.tool_calls.isEmpty then "end" else "continue"

/-- The routing table passed to graph.add_conditional_edges
(FinReAct.py lines 202-209): "continue" routes to the Tools node, "end"
routes to END. -/
def conditional_edges : List (String × String) :=
  [("continue", "Tools"), ("end", "END")]

/-- Looks up the node the conditional edge routes to for a given
should_continue result. -/
def routeOf (key : String) : Option String := conditional_edges.lookup key

/-- Fixture: five adds for user 1 filling the favorites list to the cap. -/
def capCalls : List FavCall :=
  [FavCall.add 1 "AAPL" none none, FavCall.add 1 "GOOGL" none none,
   FavCall.add 1 "AMZN" none none, FavCall.add 1 "MSFT" none none,
   FavCall.add 1 "TSLA" none none]

/-- Fixture: a weekday digest environment with one user whose SMTP send
fails. -/
def envFail : StockEmailer.DigestEnv :=
  { weekday := 0
    users := [(1, "user@example.com")]
    favorites := fun _ => [{ stock_symbol := "AAPL",
                             price_threshold_low := none,
                             price_threshold_high := none }]
    smtp_ok := fun _ => false
    smtp_err := "authentication failed" }

/-- Fixture: a Saturday digest environment with one user and favorite. -/
def envSat : StockEmailer.DigestEnv :=
  { weekday := 5
    users := [(1, "user@example.com")]
    favorites := fun _ => [{ stock_symbol := "AAPL",
                             price_threshold_low := none,
                             price_threshold_high := none }]
    smtp_ok := fun _ => true
    smtp_err := "" }

/-- Fixture: a database holding one favorite row with both thresholds
set, for the update_thresholds witness. -/
def dbWithFav : DBState :=
  { emptyDB with
    users := [{ user_id := 1, email := "user@example.com" }]
    users_counter := 1
    favorite_stocks := [{ favorite_id := 1, user_id := 1, stock_symbol := "AAPL",
                          price_threshold_low := some 150,
                          price_threshold_high := some 200 }]
    favorites_counter := 1 }

/-- C10: update_thresholds unconditionally overwrites both threshold
columns of every matching favorite row with the given arguments (a None
argument stores NULL), keeps every other column of matching rows, keeps
non-matching rows, and leaves the other tables and counters unchanged. -/
theorem c10_update_thresholds_overwrites (db : DBState) (user_id : Nat)
    (stock_symbol : String) (lo hi : Option Rat) :
    (update_thresholds db user_id stock_symbol lo hi).users = db.users ∧
    (update_thresholds db user_id stock_symbol lo hi).query_stocks = db.query_stocks ∧
    (update_thresholds db user_id stock_symbol lo hi).users_counter = db.users_counter ∧
    (update_thresholds db user_id stock_symbol lo hi).favorites_counter =
      db.favorites_counter ∧
    (update_thresholds db user_id stock_symbol lo hi).query_stocks_counter =
      db.query_stocks_counter ∧
    List.Forall₂ (fun r s =>
        (r.user_id = user_id ∧ r.stock_symbol = pyUpper stock_symbol →
          s = { r with price_threshold_low := lo, price_threshold_high := hi }) ∧
        (¬(r.user_id = user_id ∧ r.stock_symbol = pyUpper stock_symbol) → s = r))
      db.favorite_stocks
      (update_thresholds db user_id stock_symbol lo hi).favorite_stocks := by
  refine ⟨rfl, rfl, rfl, rfl, rfl, ?_⟩
  show List.Forall₂ _ db.favorite_stocks (db.favorite_stocks.map _)
  induction db.favorite_stocks with
  | nil => exact List.Forall₂.nil
  | cons a l ih =>
    refine List.Forall₂.cons ?_ ih
    by_cases hc : a.user_id = user_id ∧ a.stock_symbol = pyUpper stock_symbol
    · have hb : (a.user_id == user_id && a.stock_symbol == pyUpper stock_symbol) = true := by
        simp [hc.1, hc.2]
      exact ⟨fun _ => by simp [hb], fun hn => absurd hc hn⟩
    · have hb : (a.user_id == user_id && a.stock_symbol == pyUpper stock_symbol) = false := by
        rcases not_and_or.1 hc with h1 | h1 <;> simp [h1]
      exact ⟨fun hcc => absurd hcc hc, fun _ => by simp [hb]⟩

/-- Witness for C10 at a concrete database: updating AAPL for user 1 with
the low threshold omitted stores NULL in the low column and the given
high value, keeping the other columns. -/
theorem c10_update_thresholds_overwrites_witness :
    (update_thresholds dbWithFav 1 "AAPL" none (some 300)).favorite_stocks =
      [{ favorite_id := 1, user_id := 1, stock_symbol := "AAPL",
         price_threshold_low := none, price_threshold_high := some 300 }] ∧
    (update_thresholds dbWithFav 1 "AAPL" none (some 300)).users = dbWithFav.users ∧
    List.Forall₂ (fun r s =>
        (r.user_id = 1 ∧ r.stock_symbol = pyUpper "AAPL" →
          s = { r with price_threshold_low := none,
                       price_threshold_high := some 300 }) ∧
        (¬(r.user_id = 1 ∧ r.stock_symbol = pyUpper "AAPL") → s = r))
      dbWithFav.favorite_stocks
      (update_thresholds dbWithFav 1 "AAPL" none (some 300)).favorite_stocks :=
  ⟨by decide, (c10_update_thresholds_overwrites dbWithFav 1 "AAPL" none (some 300)).1,
   (c10_update_thresholds_overwrites dbWithFav 1 "AAPL" none (some 300)).2.2.2.2.2⟩

/-- C8: when the favorite_stocks table already holds a row for the given
user whose stored symbol is the uppercased argument, add_favorite_stock
returns False and leaves the whole database state unchanged. -/
theorem c8_duplicate_add_rejected (db : DBState) (user_id : Nat)
    (stock_symbol : String) (lo hi : Option Rat)
    (h : ∃ r ∈ db.favorite_stocks,
      r.user_id = user_id ∧ r.stock_symbol = pyUpper stock_symbol) :
    add_favorite_stock db user_id stock_symbol lo hi = (db, false) := by
  unfold add_favorite_stock
  split
  · rfl
  · split
    · rfl
    · rename_i hany
      exfalso
      obtain ⟨r, hr, h1, h2⟩ := h
      exact hany (List.any_eq_true.2 ⟨r, hr, by simp [h1, h2]⟩)

/-- Witness for C8 at a concrete database: re-adding AAPL (in lowercase)
for user 1 is rejected and changes nothing. -/
theorem c8_duplicate_add_rejected_witness :
    add_favorite_stock dbWithFav 1 "aapl" (some 1) (some 2) = (dbWithFav, false) :=
  c8_duplicate_add_rejected dbWithFav 1 "aapl" (some 1) (some 2)
    ⟨{ favorite_id := 1, user_id := 1, stock_symbol := "AAPL",
       price_threshold_low := some 150, price_threshold_high := some 200 },
     by decide, by decide, by decide⟩

/-- Helper: create_user when a row with the email is found. -/
theorem create_user_found {db : DBState} {email : String} {u : UserRow}
    (hf : db.users.find? (fun v => v.email == email) = some u) :
    create_user db email = (db, u.user_id) := by
  unfold create_user; rw [hf]

/-- Helper: create_user when no row with the email exists. -/
theorem create_user_new {db : DBState} {email : String}
    (hf : db.users.find? (fun v => v.email == email) = none) :
    create_user db email =
      ({ db with users_counter := db.users_counter + 1,
                 users := db.users ++
                   [{ user_id := db.users_counter + 1, email := email }] },
       db.users_counter + 1) := by
  unfold create_user; rw [hf]

/-- C5: create_user is idempotent on email. When the users table respects
the email UNIQUE constraint (at most one row per email), calling
create_user twice with the same email returns the same user id both
times, the second call leaves the state unchanged, and after the first
call exactly one users row carries that email. -/
theorem c5_create_user_idempotent (db : DBState) (email : String)
    (h : (db.users.filter fun u => u.email == email).length ≤ 1) :
    (create_user (create_user db email).1 email).2 = (create_user db email).2 ∧
    (create_user (create_user db email).1 email).1 = (create_user db email).1 ∧
    ((create_user db email).1.users.filter fun u => u.email == email).length = 1 := by
  cases hf : db.users.find? (fun v => v.email == email) with
  | some u =>
    have h1 : create_user db email = (db, u.user_id) := create_user_found hf
    have hp : (u.email == email) = true := by
      have := List.find?_some hf
      simpa using this
    have hm : u ∈ db.users := List.mem_of_find?_eq_some hf
    have hmem : u ∈ db.users.filter fun v => v.email == email :=
      List.mem_filter.2 ⟨hm, hp⟩
    have hpos : 0 < (db.users.filter fun v => v.email == email).length :=
      List.length_pos.2 (List.ne_nil_of_mem hmem)
    rw [h1]
    refine ⟨by rw [create_user_found hf], by rw [create_user_found hf], ?_⟩
    show (db.users.filter fun v => v.email == email).length = 1
    omega
  | none =>
    have hnone : ∀ v ∈ db.users, ¬(v.email == email) = true := by
      simpa using List.find?_eq_none.1 hf
    have hfilter : db.users.filter (fun v => v.email == email) = [] :=
      List.filter_eq_nil_iff.2 hnone
    have h1 := create_user_new hf
    have happ :
        ((create_user db email).1.users).find? (fun v => v.email == email) =
          some { user_id := db.users_counter + 1, email := email } := by
      rw [h1, List.find?_append, hf]
      simp [List.find?_cons]
    have h2 : create_user (create_user db email).1 email =
        ((create_user db email).1, db.users_counter + 1) := create_user_found happ
    refine ⟨?_, ?_, ?_⟩
    · rw [h2, h1]
    · rw [h2]
    · rw [h1]
      simp only [List.filter_append, hfilter, List.nil_append]
      simp [List.filter_cons]

/-- Witness for C5 at the empty database: creating the same email twice
yields user id 1 both times and a single matching row. -/
theorem c5_create_user_idempotent_witness :
    ((emptyDB.users.filter fun u => u.email == "a@b.com").length ≤ 1) ∧
    ((create_user (create_user emptyDB "a@b.com").1 "a@b.com").2 =
      (create_user emptyDB "a@b.com").2 ∧
    (create_user (create_user emptyDB "a@b.com").1 "a@b.com").1 =
      (create_user emptyDB "a@b.com").1 ∧
    ((create_user emptyDB "a@b.com").1.users.filter fun u => u.email == "a@b.com").length = 1) :=
  ⟨by decide, c5_create_user_idempotent emptyDB "a@b.com" (by decide)⟩

/-- Helper: an add_favorite_stock call never pushes any user beyond 5
favorites when no user exceeds 5 beforehand. -/
theorem favCount_add_le (db : DBState) (h : ∀ v, favCount v db ≤ 5)
    (uid : Nat) (sym : String) (lo hi : Option Rat) (u : Nat) :
    favCount u (add_favorite_stock db uid sym lo hi).1 ≤ 5 := by
  unfold add_favorite_stock
  split
  · exact h u
  · split
    · exact h u
    · rename_i hlt _
      show (db.favorite_stocks ++
        [({ favorite_id := db.favorites_counter + 1, user_id := uid,
            stock_symbol := pyUpper sym, price_threshold_low := lo,
            price_threshold_high := hi } : FavRow)]).countP (fun r => r.user_id == u) ≤ 5
      rw [List.countP_append]
      by_cases he : uid = u
      · subst he
        have h4 : favCount uid db ≤ 4 := by
          have := Nat.lt_of_not_le hlt
          omega
        have hone : (List.countP (fun r => r.user_id == uid)
            [({ favorite_id := db.favorites_counter + 1, user_id := uid,
                stock_symbol := pyUpper sym, price_threshold_low := lo,
                price_threshold_high := hi } : FavRow)]) ≤ 1 := by
          simp [List.countP_cons]
        have : db.favorite_stocks.countP (fun r => r.user_id == uid) ≤ 4 := h4
        omega
      · have hzero : (List.countP (fun r => r.user_id == u)
            [({ favorite_id := db.favorites_counter + 1, user_id := uid,
                stock_symbol := pyUpper sym, price_threshold_low := lo,
                price_threshold_high := hi } : FavRow)]) = 0 := by
          simp [List.countP_cons, he]
        have := h u
        show db.favorite_stocks.countP (fun r => r.user_id == u) + _ ≤ 5
        rw [hzero]
        exact this

/-- Helper: remove_favorite_stock never increases any favorites count. -/
theorem favCount_remove_le (db : DBState) (h : ∀ v, favCount v db ≤ 5)
    (uid : Nat) (sym : String) (u : Nat) :
    favCount u (remove_favorite_stock db uid sym) ≤ 5 :=
  le_trans (List.Sublist.countP_le _ (List.filter_sublist _)) (h u)

/-- Helper: the 5-favorite bound is preserved by every sequence of
add_favorite_stock / remove_favorite_stock calls. -/
theorem runFavCalls_cap (calls : List FavCall) (db : DBState)
    (h : ∀ v, favCount v db ≤ 5) :
    ∀ u, favCount u (runFavCalls db calls) ≤ 5 := by
  induction calls generalizing db with
  | nil => exact h
  | cons c cs ih =>
    intro u
    show favCount u (runFavCalls (applyFavCall db c) cs) ≤ 5
    refine ih (applyFavCall db c) ?_ u
    intro v
    cases c with
    | add uid sym lo hi => exact favCount_add_le db h uid sym lo hi v
    | remove uid sym => exact favCount_remove_le db h uid sym v

/-- C1: starting from the freshly set up database, after any sequence of
add_favorite_stock / remove_favorite_stock calls no user holds more than
5 favorite rows, and an add_favorite_stock call made while a user holds
exactly 5 returns False and leaves the whole state unchanged. -/
theorem c1_favorites_cap (calls : List FavCall) (user_id : Nat) :
    favCount user_id (runFavCalls emptyDB calls) ≤ 5 ∧
    (∀ uid sym lo hi, favCount uid (runFavCalls emptyDB calls) = 5 →
      add_favorite_stock (runFavCalls emptyDB calls) uid sym lo hi =
        (runFavCalls emptyDB calls, false)) := by
  have hbase : ∀ v, favCount v emptyDB ≤ 5 := by
    intro v; simp [favCount, emptyDB]
  refine ⟨runFavCalls_cap calls emptyDB hbase user_id, ?_⟩
  intro uid sym lo hi h5
  unfold add_favorite_stock
  rw [if_pos]
  omega

/-- Witness for C1: five adds fill user 1 to the cap, and the sixth add
is rejected without changing the state. -/
theorem c1_favorites_cap_witness :
    favCount 1 (runFavCalls emptyDB capCalls) = 5 ∧
    add_favorite_stock (runFavCalls emptyDB capCalls) 1 "NVDA" none none =
      (runFavCalls emptyDB capCalls, false) :=
  ⟨by decide, (c1_favorites_cap capCalls 1).2 1 "NVDA" none none (by decide)⟩

/-- Helper: create_user changes neither favorite_stocks nor
query_stocks. -/
theorem create_user_tables (db : DBState) (email : String) :
    (create_user db email).1.favorite_stocks = db.favorite_stocks ∧
    (create_user db email).1.query_stocks = db.query_stocks := by
  cases hf : db.users.find? (fun v => v.email == email) with
  | some u => rw [create_user_found hf]; exact ⟨rfl, rfl⟩
  | none => rw [create_user_new hf]; exact ⟨rfl, rfl⟩

/-- Helper: log_query_stocks appends only uppercased symbols to
query_stocks and leaves favorite_stocks unchanged. -/
theorem log_query_stocks_upper (syms : List String) (db : DBState) (qid : Nat)
    (h : ∀ q ∈ db.query_stocks, Uppercased q.stock_symbol) :
    (∀ q ∈ (log_query_stocks db qid syms).query_stocks, Uppercased q.stock_symbol) ∧
    (log_query_stocks db qid syms).favorite_stocks = db.favorite_stocks := by
  induction syms generalizing db with
  | nil => exact ⟨h, rfl⟩
  | cons s ss ih =>
    show (∀ q ∈ (log_query_stocks _ qid ss).query_stocks, Uppercased q.stock_symbol) ∧
      (log_query_stocks _ qid ss).favorite_stocks = _
    refine (ih _ ?_).imp id (fun he => he.trans rfl)
    intro q hq
    rcases List.mem_append.1 hq with h1 | h2
    · exact h q h1
    · have : q = { id := db.query_stocks_counter + 1, query_id := qid,
                   stock_symbol := pyUpper s } := by simpa using h2
      exact ⟨s, by rw [this]⟩

/-- Helper: every database call preserves the symbol uppercasing
invariant. -/
theorem applyOp_upper (db : DBState) (h : UpperInv db) (op : DBOp) :
    UpperInv (applyOp db op) := by
  obtain ⟨hfav, hqs⟩ := h
  cases op with
  | add uid sym lo hi =>
    show UpperInv (add_favorite_stock db uid sym lo hi).1
    unfold add_favorite_stock
    split
    · exact ⟨hfav, hqs⟩
    · split
      · exact ⟨hfav, hqs⟩
      · refine ⟨?_, hqs⟩
        intro r hr
        rcases List.mem_append.1 hr with h1 | h2
        · exact hfav r h1
        · have : r = { favorite_id := db.favorites_counter + 1, user_id := uid,
                       stock_symbol := pyUpper sym, price_threshold_low := lo,
                       price_threshold_high := hi } := by simpa using h2
          exact ⟨sym, by rw [this]⟩
  | remove uid sym =>
    refine ⟨?_, hqs⟩
    intro r hr
    exact hfav r (List.mem_of_mem_filter hr)
  | update uid sym lo hi =>
    refine ⟨?_, hqs⟩
    intro r hr
    obtain ⟨a, ha, hra⟩ := List.mem_map.1 hr
    have hsym : r.stock_symbol = a.stock_symbol := by
      subst hra
      by_cases hc : (a.user_id == uid && a.stock_symbol == pyUpper sym) = true
      · simp [hc]
      · simp [hc]
    rw [hsym]
    exact hfav a ha
  | logStocks qid syms =>
    show UpperInv (log_query_stocks db qid syms)
    exact ⟨by
      rw [(log_query_stocks_upper syms db qid hqs).2]; exact hfav,
      (log_query_stocks_upper syms db qid hqs).1⟩
  | newUser email =>
    show UpperInv (create_user db email).1
    refine ⟨?_, ?_⟩
    · rw [(create_user_tables db email).1]; exact hfav
    · rw [(create_user_tables db email).2]; exact hqs

/-- Helper: the uppercasing invariant is preserved by every sequence of
database calls. -/
theorem runOps_upper (ops : List DBOp) (db : DBState) (h : UpperInv db) :
    UpperInv (runOps db ops) := by
  induction ops generalizing db with
  | nil => exact h
  | cons op rest ih => exact ih (applyOp db op) (applyOp_upper db h op)

/-- C9: starting from any state whose stored symbols are uppercased, any
sequence of add / remove / update / log_query_stocks / create_user calls
keeps every stored stock_symbol an uppercased string, and the
symbol-taking operations are case-insensitive in the symbol argument:
two arguments with the same uppercasing produce identical results. -/
theorem c9_symbols_uppercased (db : DBState) (h : UpperInv db) (ops : List DBOp) :
    UpperInv (runOps db ops) ∧
    (∀ uid s1 s2 lo hi, pyUpper s1 = pyUpper s2 →
      add_favorite_stock db uid s1 lo hi = add_favorite_stock db uid s2 lo hi ∧
      remove_favorite_stock db uid s1 = remove_favorite_stock db uid s2 ∧
      update_thresholds db uid s1 lo hi = update_thresholds db uid s2 lo hi) := by
  refine ⟨runOps_upper ops db h, ?_⟩
  intro uid s1 s2 lo hi hs
  refine ⟨?_, ?_, ?_⟩
  · unfold add_favorite_stock; rw [hs]
  · unfold remove_favorite_stock; rw [hs]
  · unfold update_thresholds; rw [hs]

/-- Witness for C9: from the empty database, adding a lowercase symbol
and logging lowercase query symbols stores only uppercased symbols, and
the mixed-case argument behaves like its uppercase form. -/
theorem c9_symbols_uppercased_witness :
    UpperInv (runOps emptyDB [DBOp.add 1 "aapl" none none,
      DBOp.logStocks 1 ["msft", "Googl"]]) ∧
    add_favorite_stock emptyDB 1 "aApL" none none =
      add_favorite_stock emptyDB 1 "AAPL" none none :=
  ⟨(c9_symbols_uppercased emptyDB
      ⟨fun r hr => absurd hr (List.not_mem_nil r),
       fun q hq => absurd hq (List.not_mem_nil q)⟩
      [DBOp.add 1 "aapl" none none, DBOp.logStocks 1 ["msft", "Googl"]]).1,
   ((c9_symbols_uppercased emptyDB
      ⟨fun r hr => absurd hr (List.not_mem_nil r),
       fun q hq => absurd hq (List.not_mem_nil q)⟩
      []).2 1 "aApL" "AAPL" none none (by decide)).1⟩

/-- Helper: the fold used by latestEntry returns an element of the list
whose key is at least every key seen, and at least the accumulator key. -/
theorem foldl_latest (es : List (String × StockEmailer.DailyBar)) :
    ∀ e : String × StockEmailer.DailyBar,
      (es.foldl (fun acc p => if acc.1 < p.1 then p else acc) e ∈ e :: es) ∧
      e.1 ≤ (es.foldl (fun acc p => if acc.1 < p.1 then p else acc) e).1 ∧
      ∀ p ∈ es, p.1 ≤ (es.foldl (fun acc p => if acc.1 < p.1 then p else acc) e).1 := by
  induction es with
  | nil =>
    intro e
    exact ⟨List.mem_singleton.2 rfl, le_refl _, by simp⟩
  | cons a as ih =>
    intro e
    show (as.foldl _ (if e.1 < a.1 then a else e) ∈ e :: a :: as) ∧
      e.1 ≤ (as.foldl _ (if e.1 < a.1 then a else e)).1 ∧
      ∀ p ∈ a :: as, p.1 ≤ (as.foldl _ (if e.1 < a.1 then a else e)).1
    obtain ⟨hmem, hacc, hall⟩ := ih (if e.1 < a.1 then a else e)
    have hstep : e.1 ≤ (if e.1 < a.1 then a else e).1 := by
      by_cases hc : e.1 < a.1
      · rw [if_pos hc]; exact le_of_lt hc
      · rw [if_neg hc]
    have hstepa : a.1 ≤ (if e.1 < a.1 then a else e).1 := by
      by_cases hc : e.1 < a.1
      · rw [if_pos hc]
      · rw [if_neg hc]; exact le_of_not_lt hc
    refine ⟨?_, le_trans hstep hacc, ?_⟩
    · rcases List.mem_cons.1 hmem with h1 | h1
      · rw [h1]
        by_cases hc : e.1 < a.1
        · rw [if_pos hc]; exact List.mem_cons_of_mem _ (List.mem_cons_self _ _)
        · rw [if_neg hc]; exact List.mem_cons_self _ _
      · exact List.mem_cons_of_mem _ (List.mem_cons_of_mem _ h1)
    · intro p hp
      rcases List.mem_cons.1 hp with h1 | h1
      · rw [h1]; exact le_trans hstepa hacc
      · exact hall p h1

/-- C2 (amended): when the provider response has a non-empty daily time
series whose most recent (lexicographically greatest-dated, hence
latest ISO date) bar has a nonzero open, get_stock_data returns the OK
payload carrying the symbol, that date, the OHLCV fields of that bar,
change = close - open and change_percent = change / open * 100; and when
the provider has no series for the symbol it returns the error payload. -/
theorem c2_get_stock_data (symbol : String)
    (ts : List (String × StockEmailer.DailyBar))
    (latest_date : String) (latest_data : StockEmailer.DailyBar)
    (hts : StockEmailer.latestEntry ts = some (latest_date, latest_data))
    (hopen : latest_data.«open» ≠ 0) :
    ((latest_date, latest_data) ∈ ts ∧ ∀ p ∈ ts, p.1 ≤ latest_date) ∧
    StockEmailer.get_stock_data symbol (some ts) = StockEmailer.StockResult.ok
      { symbol := symbol, date := latest_date, close := latest_data.close,
        «open» := latest_data.«open», high := latest_data.high,
        low := latest_data.low, volume := latest_data.volume,
        change := latest_data.close - latest_data.«open»,
        change_percent :=
          (latest_data.close - latest_data.«open») / latest_data.«open» * 100 } ∧
    (∀ q, StockEmailer.get_stock_data symbol (some ts) = StockEmailer.StockResult.ok q →
      q.symbol = symbol ∧ q.date = latest_date ∧
      q.change = q.close - q.«open» ∧ q.change_percent = q.change / q.«open» * 100) ∧
    StockEmailer.get_stock_data symbol none =
      StockEmailer.StockResult.err symbol "No data found for this symbol." := by
  have hok : StockEmailer.get_stock_data symbol (some ts) = StockEmailer.StockResult.ok
      { symbol := symbol, date := latest_date, close := latest_data.close,
        «open» := latest_data.«open», high := latest_data.high,
        low := latest_data.low, volume := latest_data.volume,
        change := latest_data.close - latest_data.«open»,
        change_percent :=
          (latest_data.close - latest_data.«open») / latest_data.«open» * 100 } := by
    unfold StockEmailer.get_stock_data
    dsimp only
    rw [hts]
    dsimp only
    rw [if_neg hopen]
  refine ⟨?_, hok, ?_, rfl⟩
  · cases ts with
    | nil => simp [StockEmailer.latestEntry] at hts
    | cons e es =>
      have hfold := foldl_latest es e
      have heq : es.foldl (fun acc p => if acc.1 < p.1 then p else acc) e =
          (latest_date, latest_data) := by
        have : some (es.foldl (fun acc p => if acc.1 < p.1 then p else acc) e) =
            some (latest_date, latest_data) := hts
        exact Option.some.inj this
      rw [heq] at hfold
      refine ⟨hfold.1, ?_⟩
      intro p hp
      rcases List.mem_cons.1 hp with h1 | h1
      · rw [h1]; exact hfold.2.1
      · exact hfold.2.2 p h1
  · intro q hq
    rw [hok] at hq
    have := (StockEmailer.StockResult.ok.inj hq)
    rw [← this]
    exact ⟨rfl, rfl, rfl, rfl⟩

/-- Witness for C2 on a concrete two-day series: the later-dated bar is
selected and its change fields are computed from close and open. -/
theorem c2_get_stock_data_witness :
    StockEmailer.latestEntry [("2024-01-02", ⟨2, 3, 1, 3, 100⟩)] =
      some ("2024-01-02", ⟨2, 3, 1, 3, 100⟩) ∧
    StockEmailer.get_stock_data "AAPL" (some [("2024-01-02", ⟨2, 3, 1, 3, 100⟩)]) =
      StockEmailer.StockResult.ok
        { symbol := "AAPL", date := "2024-01-02", close := 3, «open» := 2,
          high := 3, low := 1, volume := 100, change := 3 - 2,
          change_percent := (3 - 2) / 2 * 100 } ∧
    StockEmailer.get_stock_data "AAPL" none =
      StockEmailer.StockResult.err "AAPL" "No data found for this symbol." :=
  ⟨rfl,
   (c2_get_stock_data "AAPL" [("2024-01-02", ⟨2, 3, 1, 3, 100⟩)]
     "2024-01-02" ⟨2, 3, 1, 3, 100⟩ rfl (by decide)).2.1,
   (c2_get_stock_data "AAPL" [("2024-01-02", ⟨2, 3, 1, 3, 100⟩)]
     "2024-01-02" ⟨2, 3, 1, 3, 100⟩ rfl (by decide)).2.2.2⟩

/-- Counterexample to C2 as stated: the provider response does contain a
daily time series, but its most recent bar has open 0, and the code
returns the error payload of the caught ZeroDivisionError instead of the
OHLCV payload the claim promises for every series. -/
theorem c2_claim_counterexample :
    StockEmailer.get_stock_data "ZERO" (some [("2024-01-02", ⟨0, 1, 0, 1, 10⟩)]) =
      StockEmailer.StockResult.err "ZERO" "float division by zero" := rfl

/-- Helper: the Boolean guard of the low-alert branch holds exactly when
the low threshold is set, nonzero and at or above the close. -/
theorem low_guard_iff (close : Rat) (lo : Option Rat) :
    (StockEmailer.ratTruthy lo && decide (close ≤ lo.getD 0)) = true ↔
      StockEmailer.lowFires close lo := by
  cases lo with
  | none => simp [StockEmailer.ratTruthy, StockEmailer.lowFires]
  | some x => simp [StockEmailer.ratTruthy, StockEmailer.lowFires, bne_iff_ne, and_comm]

/-- Helper: the Boolean guard of the high-alert branch holds exactly when
the high threshold is set, nonzero and at or below the close. -/
theorem high_guard_iff (close : Rat) (hi : Option Rat) :
    (StockEmailer.ratTruthy hi && decide (hi.getD 0 ≤ close)) = true ↔
      StockEmailer.highFires close hi := by
  cases hi with
  | none => simp [StockEmailer.ratTruthy, StockEmailer.highFires]
  | some x => simp [StockEmailer.ratTruthy, StockEmailer.highFires, bne_iff_ne, and_comm]

/-- C4 (amended): check_price_alerts emits the low-alert line exactly
when the low threshold is set, nonzero and close <= it, emits the
high-alert line exactly when the high threshold is set, nonzero and
close >= it, joins the two with a newline when both fire, and returns
None when neither fires (in particular when no threshold is set). -/
theorem c4_check_price_alerts (stock_data : StockEmailer.StockDataRec)
    (low_threshold high_threshold : Option Rat) :
    (StockEmailer.lowFires stock_data.close low_threshold →
      StockEmailer.highFires stock_data.close high_threshold →
      StockEmailer.check_price_alerts stock_data low_threshold high_threshold =
        some (StockEmailer.low_alert_text stock_data (low_threshold.getD 0) ++ "\n" ++
              StockEmailer.high_alert_text stock_data (high_threshold.getD 0))) ∧
    (StockEmailer.lowFires stock_data.close low_threshold →
      ¬ StockEmailer.highFires stock_data.close high_threshold →
      StockEmailer.check_price_alerts stock_data low_threshold high_threshold =
        some (StockEmailer.low_alert_text stock_data (low_threshold.getD 0))) ∧
    (¬ StockEmailer.lowFires stock_data.close low_threshold →
      StockEmailer.highFires stock_data.close high_threshold →
      StockEmailer.check_price_alerts stock_data low_threshold high_threshold =
        some (StockEmailer.high_alert_text stock_data (high_threshold.getD 0))) ∧
    (¬ StockEmailer.lowFires stock_data.close low_threshold →
      ¬ StockEmailer.highFires stock_data.close high_threshold →
      StockEmailer.check_price_alerts stock_data low_threshold high_threshold = none) := by
  unfold StockEmailer.check_price_alerts
  refine ⟨fun hl hh => ?_, fun hl hh => ?_, fun hl hh => ?_, fun hl hh => ?_⟩
  · rw [if_pos ((low_guard_iff _ _).2 hl), if_pos ((high_guard_iff _ _).2 hh)]
    rfl
  · rw [if_pos ((low_guard_iff _ _).2 hl),
      if_neg (fun hb => hh ((high_guard_iff _ _).1 hb))]
    rfl
  · rw [if_neg (fun hb => hl ((low_guard_iff _ _).1 hb)),
      if_pos ((high_guard_iff _ _).2 hh)]
    rfl
  · rw [if_neg (fun hb => hl ((low_guard_iff _ _).1 hb)),
      if_neg (fun hb => hh ((high_guard_iff _ _).1 hb))]
    rfl

/-- Witness for C4 at close 100 with low threshold 110 and high
threshold 90: both alerts fire and are joined by a newline; with no
thresholds the result is None. -/
theorem c4_check_price_alerts_witness :
    StockEmailer.check_price_alerts ⟨"TEST", 100⟩ (some 110) (some 90) =
      some (StockEmailer.low_alert_text ⟨"TEST", 100⟩ 110 ++ "\n" ++
            StockEmailer.high_alert_text ⟨"TEST", 100⟩ 90) ∧
    StockEmailer.check_price_alerts ⟨"TEST", 100⟩ none none = none :=
  ⟨(c4_check_price_alerts ⟨"TEST", 100⟩ (some 110) (some 90)).1
      ⟨by decide, by decide⟩ ⟨by decide, by decide⟩,
   (c4_check_price_alerts ⟨"TEST", 100⟩ none none).2.2.2
      (fun h => h) (fun h => h)⟩

/-- Counterexample to C4 as stated: with close 0 and a stored low
threshold of 0, the close is at or below the threshold, yet no alert
text is produced, because the code tests the threshold for Python
truthiness and 0 is falsy. -/
theorem c4_claim_counterexample :
    (0 : Rat) ≤ 0 ∧
    StockEmailer.check_price_alerts ⟨"XYZ", 0⟩ (some 0) none = none := by
  exact ⟨le_refl 0, by decide⟩

/-- C6: should_continue returns "end" exactly when the last transcript
message carries no tool invocation requests, returns "continue" exactly
when it carries at least one, and the conditional edge table routes
"continue" to the Tools node and "end" to END. -/
theorem c6_should_continue (state : AgentState) (h : state.messages ≠ []) :
    (should_continue state h = "end" ↔ (state.messages.getLast h).tool_calls = []) ∧
    (should_continue state h = "continue" ↔ (state.messages.getLast h).tool_calls ≠ []) ∧
    routeOf (should_continue state h) =
      some (if (state.messages.getLast h).tool_calls = [] then "END" else "Tools") := by
  by_cases hc : (state.messages.getLast h).tool_calls = []
  · have hend : should_continue state h = "end" := by
      unfold should_continue
      rw [if_pos (by simp [hc])]
    rw [hend]
    refine ⟨by simp [hc], ?_, ?_⟩
    · constructor
      · intro he
        exact absurd he (by decide)
      · intro hne
        exact absurd hc hne
    · rw [if_pos hc]
      decide
  · have hcont : should_continue state h = "continue" := by
      unfold should_continue
      rw [if_neg (by simp [hc])]
    rw [hcont]
    refine ⟨?_, by simp [hc], ?_⟩
    · constructor
      · intro he
        exact absurd he (by decide)
      · intro heq
        exact absurd heq hc
    · rw [if_neg hc]
      decide

/-- Witness for C6 on concrete transcripts: a final message without tool
calls ends the loop and routes to END; one with a tool call continues
and routes to Tools. -/
theorem c6_should_continue_witness :
    should_continue ⟨[⟨"final answer", []⟩], 1, "user@example.com"⟩ (by decide) = "end" ∧
    routeOf (should_continue ⟨[⟨"final answer", []⟩], 1, "user@example.com"⟩ (by decide)) =
      some "END" ∧
    should_continue ⟨[⟨"", [⟨"get_stock_data", [("symbol", "QQQ")]⟩]⟩], 1,
      "user@example.com"⟩ (by decide) = "continue" :=
  ⟨(c6_should_continue ⟨[⟨"final answer", []⟩], 1, "user@example.com"⟩ (by decide)).1.2 rfl,
   (c6_should_continue ⟨[⟨"final answer", []⟩], 1, "user@example.com"⟩ (by decide)).2.2,
   (c6_should_continue ⟨[⟨"", [⟨"get_stock_data", [("symbol", "QQQ")]⟩]⟩], 1,
      "user@example.com"⟩ (by decide)).2.1.2 (by decide)⟩

/-- C7: on a Saturday (weekday 5) or Sunday (weekday 6) the daily digest
job returns before doing anything: its effect trace is empty, so no
quote fetch, no news fetch, no email send and no log write happens. -/
theorem c7_weekend_skip (env : StockEmailer.DigestEnv)
    (h : env.weekday = 5 ∨ env.weekday = 6) :
    StockEmailer.daily_email_job env = [] := by
  unfold StockEmailer.daily_email_job
  rw [if_pos]
  rcases h with h | h <;> omega

/-- Witness for C7: the Saturday environment with a user and a favorite
produces an empty effect trace. -/
theorem c7_weekend_skip_witness :
    StockEmailer.daily_email_job envSat = [] :=
  c7_weekend_skip envSat (Or.inl rfl)

/-- C3 (divergence witness): in the digest job the send result is a
Python dictionary, which is truthy even when delivery failed, so the
synthetic query and response rows are logged although smtp_ok is false
for the only recipient. The trace for envFail shows the failed send
followed by both log writes. -/
theorem c3_failed_send_still_logs :
    envFail.smtp_ok "user@example.com" = false ∧
    StockEmailer.dictTruthy
      (StockEmailer.send_email false "user@example.com" "authentication failed") = true ∧
    StockEmailer.Effect.log_query 1 "Automated daily email sent" ∈
      StockEmailer.daily_email_job envFail ∧
    StockEmailer.Effect.log_response "Daily email sent" ["email", "stock_data", "news"] 0 ∈
      StockEmailer.daily_email_job envFail :=
  ⟨rfl, rfl, by decide, by decide⟩
